import Mathlib

/-!
Verification of the reality-lens duplex streaming subsystem.

Shallow embedding of the three components named by the specification:

* `GeminiLiveClient`  — the browser StreamingClient
  (source: the GeminiLiveClient class shipped with the repository docs).
* `GeminiLiveService` — the server-side UpstreamAdapter
  (source: server/src/gemini-live-service.ts).
* `RealityLensWebSocketServer` — the Relay
  (source: server/src/websocket-server.ts).

Modelling conventions: wall-clock reads (Date.now()) and the random draw of
Math.random().toString(36).substring(2, 9) enter as explicit parameters;
the WebSocket transport is a record carrying its readyState; a send on the
transport either succeeds or raises, captured by a boolean `sendOk` oracle
fixed for a run; each operation additionally returns the list of payloads it
actually transmitted on the wire, in order.  The unbounded `while` loop of
processQueue is embedded with explicit fuel: `none` means the loop did not
finish within the given fuel.  The JavaScript Map holding the Relay
connections is embedded as an association list whose keys are unique (the
Map invariant), with set/delete mirroring Map.set / Map.delete.
-/

/- WebSocket readyState constants of the DOM / ws API. -/
namespace WebSocket

def CONNECTING : Nat := 0

def OPEN : Nat := 1

def CLOSING : Nat := 2

def CLOSED : Nat := 3

end WebSocket

/-- A transport endpoint: the observable part of a WebSocket object. -/
structure Transport where
  readyState : Nat
deriving DecidableEq

namespace GeminiLiveClient

/-- Payload record of a client wire message (`data` field). -/
structure MessageData where
  frame : Option String := none
  audio : Option String := none
  text : Option String := none
  timestamp : Option Nat := none
deriving DecidableEq

/-- Client→Relay wire message: tagged type plus optional payload. -/
structure ClientMessage where
  type : String
  data : Option MessageData := none
deriving DecidableEq

/-- Mutable fields of the GeminiLiveClient class. -/
structure ClientState where
  ws : Option Transport
  isConnected : Bool
  reconnectAttempts : Nat
  shouldReconnect : Bool
  messageQueue : List ClientMessage
deriving DecidableEq

/-- Field initializer: maxReconnectAttempts = 3. -/
def maxReconnectAttempts : Nat := 3

/-- Field initializer: reconnectDelay = 1000 (ms). -/
def reconnectDelay : Nat := 1000

/-- The guard `this.ws && this.ws.readyState === WebSocket.OPEN`. -/
def wsIsOpen (s : ClientState) : Bool :=
  match s.ws with
  | none => false
  | some t => t.readyState == WebSocket.OPEN

/-- sendMessage: transmit when the socket is open and the send succeeds;
on a non-open socket, or when the send raises, append to the queue.
Second component: the messages put on the wire by this call. -/
def sendMessage (s : ClientState) (m : ClientMessage) (sendOk : Bool) :
    ClientState × List ClientMessage :=
  if wsIsOpen s = false then
    ({ s with messageQueue := s.messageQueue ++ [m] }, [])
  else if sendOk then
    (s, [m])
  else
    ({ s with messageQueue := s.messageQueue ++ [m] }, [])

/-- sendVideoFrame: wraps the base64 frame and the Date.now() reading. -/
def sendVideoFrame (s : ClientState) (base64Frame : String) (now : Nat)
    (sendOk : Bool) : ClientState × List ClientMessage :=
  sendMessage s
    { type := "video_frame"
      data := some { frame := some base64Frame, timestamp := some now } }
    sendOk

/-- sendAudioChunk: wraps the base64 audio and the Date.now() reading. -/
def sendAudioChunk (s : ClientState) (base64Audio : String) (now : Nat)
    (sendOk : Bool) : ClientState × List ClientMessage :=
  sendMessage s
    { type := "audio_chunk"
      data := some { audio := some base64Audio, timestamp := some now } }
    sendOk

/-- sendText: wraps the text and the Date.now() reading. -/
def sendText (s : ClientState) (content : String) (now : Nat)
    (sendOk : Bool) : ClientState × List ClientMessage :=
  sendMessage s
    { type := "text"
      data := some { text := some content, timestamp := some now } }
    sendOk

/-- processQueue: `while (queue.length > 0 && ws.readyState === OPEN) shift-and-send`,
with fuel; `none` means the loop did not finish within the fuel. -/
def processQueueFuel (sendOk : Bool) : Nat → ClientState →
    Option (ClientState × List ClientMessage)
  | 0, s =>
    if s.messageQueue = [] ∨ wsIsOpen s = false then some (s, []) else none
  | fuel + 1, s =>
    match s.messageQueue with
    | [] => some (s, [])
    | m :: rest =>
      if wsIsOpen s = false then some (s, [])
      else
        let step := sendMessage { s with messageQueue := rest } m sendOk
        match processQueueFuel sendOk fuel step.1 with
        | none => none
        | some r => some (r.1, step.2 ++ r.2)

/-- Outcome of one invocation of a close handler or of attemptReconnect:
the new state, the delay of the reconnect timer it scheduled (if any), and
how many errors it surfaced to the error observer. -/
structure ReconnectOutcome (σ : Type) where
  state : σ
  scheduledDelay : Option Nat
  errorsSurfaced : Nat
deriving DecidableEq

/-- attemptReconnect: stop with a terminal error once the ceiling is
reached, else bump the counter and schedule `reconnectDelay * 2 ^ (attempts - 1)`. -/
def attemptReconnect (s : ClientState) : ReconnectOutcome ClientState :=
  if s.reconnectAttempts ≥ maxReconnectAttempts then
    { state := s, scheduledDelay := none, errorsSurfaced := 1 }
  else
    let attempts := s.reconnectAttempts + 1
    { state := { s with reconnectAttempts := attempts }
      scheduledDelay := some (reconnectDelay * 2 ^ (attempts - 1))
      errorsSurfaced := 0 }

/-- The onclose handler: clear isConnected, then reconnect only when
`shouldReconnect` still holds. -/
def onClose (s : ClientState) : ReconnectOutcome ClientState :=
  let s1 := { s with isConnected := false }
  if s1.shouldReconnect then attemptReconnect s1
  else { state := s1, scheduledDelay := none, errorsSurfaced := 0 }

/-- disconnect(): set shouldReconnect false; when a socket exists, send the
end message, clear isConnected and drop the socket. -/
def disconnect (s : ClientState) (sendOk : Bool) :
    ClientState × List ClientMessage :=
  let s1 := { s with shouldReconnect := false }
  match s1.ws with
  | none => (s1, [])
  | some _ =>
    let step := sendMessage s1 { type := "end" } sendOk
    ({ step.1 with isConnected := false, ws := none }, step.2)

/-- The body of connect(): it constructs a fresh WebSocket unconditionally
(this is what a pending reconnect timer executes when it fires; there is no
liveness check before the constructor runs). -/
def connectStart (s : ClientState) (fresh : Transport) : ClientState :=
  { s with ws := some fresh }

/-- The onopen handler: mark connected, reset the attempt counter, then
drain the queue. -/
def onOpen (sendOk : Bool) (fuel : Nat) (s : ClientState) :
    Option (ClientState × List ClientMessage) :=
  processQueueFuel sendOk fuel
    { s with isConnected := true, reconnectAttempts := 0 }

/-- One application-level send call issued by UI code, with its Date.now()
reading. -/
inductive SendOp where
  | video (base64Frame : String) (now : Nat)
  | audio (base64Audio : String) (now : Nat)
  | text (content : String) (now : Nat)

/-- The wire message a send call constructs. -/
def SendOp.toMessage : SendOp → ClientMessage
  | .video f now =>
    { type := "video_frame", data := some { frame := some f, timestamp := some now } }
  | .audio a now =>
    { type := "audio_chunk", data := some { audio := some a, timestamp := some now } }
  | .text c now =>
    { type := "text", data := some { text := some c, timestamp := some now } }

/-- Dispatch one send call to the corresponding client method. -/
def applySendOp (s : ClientState) (op : SendOp) (sendOk : Bool) :
    ClientState × List ClientMessage :=
  match op with
  | .video f now => sendVideoFrame s f now sendOk
  | .audio a now => sendAudioChunk s a now sendOk
  | .text c now => sendText s c now sendOk

/-- Run a sequence of send calls, concatenating everything transmitted. -/
def runSends (s : ClientState) (ops : List SendOp) (sendOk : Bool) :
    ClientState × List ClientMessage :=
  match ops with
  | [] => (s, [])
  | op :: rest =>
    let step := applySendOp s op sendOk
    let tail := runSends step.1 rest sendOk
    (tail.1, step.2 ++ tail.2)

end GeminiLiveClient

namespace GeminiLiveService

/-- One entry of realtimeInput.mediaChunks. -/
structure MediaChunk where
  data : String
  mimeType : String
deriving DecidableEq

/-- The realtimeInput field of an upstream message. -/
structure RealtimeInput where
  mediaChunks : List MediaChunk
deriving DecidableEq

/-- Upstream wire message.  The setup payload is carried as its serialized
form: no claim depends on its contents, only on whether a message is a
setup or a data message. -/
structure GeminiLiveMessage where
  setup : Option String := none
  realtimeInput : Option RealtimeInput := none
deriving DecidableEq

/-- Mutable fields of the GeminiLiveService class. -/
structure ServiceState where
  ws : Option Transport
  isConnected : Bool
  reconnectAttempts : Nat
  messageQueue : List GeminiLiveMessage
deriving DecidableEq

/-- Field initializer: maxReconnectAttempts = 3. -/
def maxReconnectAttempts : Nat := 3

/-- Field initializer: reconnectDelay = 1000 (ms). -/
def reconnectDelay : Nat := 1000

/-- The guard `this.ws && this.ws.readyState === WebSocket.OPEN`. -/
def wsIsOpen (s : ServiceState) : Bool :=
  match s.ws with
  | none => false
  | some t => t.readyState == WebSocket.OPEN

/-- sendMessage: transmit when the socket is open and the send succeeds;
on a non-open socket, or when the send raises, append to the queue. -/
def sendMessage (s : ServiceState) (m : GeminiLiveMessage) (sendOk : Bool) :
    ServiceState × List GeminiLiveMessage :=
  if wsIsOpen s = false then
    ({ s with messageQueue := s.messageQueue ++ [m] }, [])
  else if sendOk then
    (s, [m])
  else
    ({ s with messageQueue := s.messageQueue ++ [m] }, [])

/-- sendVideoFrame: wrap the bare base64 frame as an image/jpeg media chunk. -/
def sendVideoFrame (s : ServiceState) (base64Frame : String) (sendOk : Bool) :
    ServiceState × List GeminiLiveMessage :=
  sendMessage s
    { realtimeInput :=
        some { mediaChunks := [{ data := base64Frame, mimeType := "image/jpeg" }] } }
    sendOk

/-- sendAudioChunk: wrap the bare base64 audio as an audio/pcm media chunk. -/
def sendAudioChunk (s : ServiceState) (base64Audio : String) (sendOk : Bool) :
    ServiceState × List GeminiLiveMessage :=
  sendMessage s
    { realtimeInput :=
        some { mediaChunks := [{ data := base64Audio, mimeType := "audio/pcm" }] } }
    sendOk

/-- processQueue: `while (queue.length > 0) shift-and-send` (note: unlike the
client loop, the guard does not test the socket), with fuel; `none` means
the loop did not finish within the fuel. -/
def processQueueFuel (sendOk : Bool) : Nat → ServiceState →
    Option (ServiceState × List GeminiLiveMessage)
  | 0, s =>
    if s.messageQueue = [] then some (s, []) else none
  | fuel + 1, s =>
    match s.messageQueue with
    | [] => some (s, [])
    | m :: rest =>
      let step := sendMessage { s with messageQueue := rest } m sendOk
      match processQueueFuel sendOk fuel step.1 with
      | none => none
      | some r => some (r.1, step.2 ++ r.2)

/-- The drain loop terminates on a state when some fuel suffices. -/
def processQueueTerminates (sendOk : Bool) (s : ServiceState) : Prop :=
  ∃ fuel r, processQueueFuel sendOk fuel s = some r

/-- attemptReconnect: stop with a terminal error once the ceiling is
reached, else bump the counter and schedule `reconnectDelay * 2 ^ (attempts - 1)`. -/
def attemptReconnect (s : ServiceState) : GeminiLiveClient.ReconnectOutcome ServiceState :=
  if s.reconnectAttempts ≥ maxReconnectAttempts then
    { state := s, scheduledDelay := none, errorsSurfaced := 1 }
  else
    let attempts := s.reconnectAttempts + 1
    { state := { s with reconnectAttempts := attempts }
      scheduledDelay := some (reconnectDelay * 2 ^ (attempts - 1))
      errorsSurfaced := 0 }

/-- The on-close handler: clear isConnected then call attemptReconnect —
unconditionally; the class has no teardown flag. -/
def onClose (s : ServiceState) : GeminiLiveClient.ReconnectOutcome ServiceState :=
  attemptReconnect { s with isConnected := false }

/-- disconnect(): when a socket exists, clear isConnected, close the socket
and null the reference.  No flag records that teardown happened. -/
def disconnect (s : ServiceState) : ServiceState :=
  match s.ws with
  | none => s
  | some _ => { s with isConnected := false, ws := none }

end GeminiLiveService

namespace RealityLensWebSocketServer

/-- Per-client ConnectionState of the Relay.  The upstream service the Relay
stores on the state object is carried in `geminiService`. -/
structure ConnectionState where
  id : String
  clientWs : Transport
  geminiService : Option GeminiLiveService.ServiceState
  isActive : Bool
  lastActivity : Nat
  frameCount : Nat
deriving DecidableEq

/-- The Relay object: its id → ConnectionState Map, embedded as an
association list (unique keys are the Map invariant). -/
structure ServerState where
  connections : List (String × ConnectionState)
deriving DecidableEq

/-- Map.get: first entry with the key. -/
def lookupEntry : List (String × ConnectionState) → String → Option ConnectionState
  | [], _ => none
  | (k, v) :: rest, id => if k = id then some v else lookupEntry rest id

/-- Map.set: replace the value under the key, or append a new entry. -/
def setEntry : List (String × ConnectionState) → String → ConnectionState →
    List (String × ConnectionState)
  | [], id, st => [(id, st)]
  | (k, v) :: rest, id, st =>
    if k = id then (k, st) :: rest else (k, v) :: setEntry rest id st

/-- Map.delete: remove the entry with the key. -/
def deleteEntry : List (String × ConnectionState) → String →
    List (String × ConnectionState)
  | [], _ => []
  | (k, v) :: rest, id => if k = id then rest else (k, v) :: deleteEntry rest id

/-- this.connections.get(id). -/
def findConn (srv : ServerState) (id : String) : Option ConnectionState :=
  lookupEntry srv.connections id

/-- Hardcoded idle threshold: 5 minutes. -/
def staleThreshold : Nat := 5 * 60 * 1000

/-- generateConnectionId: backtick-template of the Date.now() reading and
the Math.random().toString(36).substring(2, 9) draw. -/
def generateConnectionId (now : Nat) (rand : String) : String :=
  "conn_" ++ Nat.repr now ++ "_" ++ rand

/-- The connection handler: mint an id, build a fresh ConnectionState and
store it under the id (the upstream link is established asynchronously
afterwards).  Returns the id it minted. -/
def registerConnection (srv : ServerState) (now : Nat) (rand : String)
    (clientWs : Transport) : ServerState × String :=
  let id := generateConnectionId now rand
  let st : ConnectionState :=
    { id := id, clientWs := clientWs, geminiService := none,
      isActive := true, lastActivity := now, frameCount := 0 }
  ({ srv with connections := setEntry srv.connections id st }, id)

/-- ws.close() when still open. -/
def closeIfOpen (t : Transport) : Transport :=
  if t.readyState = WebSocket.OPEN then { readyState := WebSocket.CLOSED } else t

/-- cleanupConnection: absent id → plain return; otherwise disconnect the
upstream service, close the client socket if still open, clear isActive
(all mutations of the stored state object), then delete the entry. -/
def cleanupConnection (srv : ServerState) (id : String) : ServerState :=
  match findConn srv id with
  | none => srv
  | some st =>
    let st1 : ConnectionState :=
      { st with
        geminiService := st.geminiService.map GeminiLiveService.disconnect
        clientWs := closeIfOpen st.clientWs
        isActive := false }
    { srv with connections := deleteEntry (setEntry srv.connections id st1) id }

/-- Loop body of the idle sweep: tear down one entry when its lastActivity
is more than the threshold in the past. -/
def sweepStep (now : Nat) (acc : ServerState) (entry : String × ConnectionState) :
    ServerState :=
  if now - entry.2.lastActivity > staleThreshold then
    cleanupConnection acc entry.1
  else acc

/-- cleanupStaleConnections: sweep every tracked entry, tearing down those
whose lastActivity is more than the threshold in the past. -/
def cleanupStaleConnections (srv : ServerState) (now : Nat) : ServerState :=
  srv.connections.foldl (sweepStep now) srv

/-- Character class \w of the anchored data-URL regex. -/
def isWordChar (c : Char) : Bool :=
  c.isAlphanum || c == '_'

/-- The replace of the anchored regex `^data:<kind>\/\w+;base64,` by the
empty string: strip the prefix when it matches, else return the input. -/
def stripDataUrl (kind : String) (s : String) : String :=
  let cs := s.data
  let head := ("data:" ++ kind ++ "/").data
  if cs.take head.length = head then
    let rest := cs.drop head.length
    let w := rest.takeWhile isWordChar
    if 0 < w.length ∧ (rest.drop w.length).take 8 = ";base64,".data then
      String.mk ((rest.drop w.length).drop 8)
    else s
  else s

/-- handleClientMessage: ignore unknown or inactive connections, refresh
lastActivity, then dispatch on the message type.  Second component: the
messages the upstream adapter put on its wire while handling this message. -/
def handleClientMessage (srv : ServerState) (id : String)
    (msg : GeminiLiveClient.ClientMessage) (now : Nat) (sendOk : Bool) :
    ServerState × List GeminiLiveService.GeminiLiveMessage :=
  match findConn srv id with
  | none => (srv, [])
  | some st0 =>
    if st0.isActive = false then (srv, [])
    else
      let st := { st0 with lastActivity := now }
      match st.geminiService with
      | none => ({ srv with connections := setEntry srv.connections id st }, [])
      | some svc =>
        if msg.type = "video_frame" then
          match msg.data.bind (fun d => d.frame) with
          | none => ({ srv with connections := setEntry srv.connections id st }, [])
          | some frame =>
            let st1 := { st with frameCount := st.frameCount + 1 }
            let base64Frame := stripDataUrl "image" frame
            let step := GeminiLiveService.sendVideoFrame svc base64Frame sendOk
            ({ srv with connections :=
                setEntry srv.connections id { st1 with geminiService := some step.1 } },
             step.2)
        else if msg.type = "audio_chunk" then
          match msg.data.bind (fun d => d.audio) with
          | none => ({ srv with connections := setEntry srv.connections id st }, [])
          | some audio =>
            let base64Audio := stripDataUrl "audio" audio
            let step := GeminiLiveService.sendAudioChunk svc base64Audio sendOk
            ({ srv with connections :=
                setEntry srv.connections id { st with geminiService := some step.1 } },
             step.2)
        else if msg.type = "end" then
          (cleanupConnection { srv with connections := setEntry srv.connections id st } id, [])
        else
          ({ srv with connections := setEntry srv.connections id st }, [])

end RealityLensWebSocketServer

/- Concrete fixtures instantiating the claim theorems below. -/

/-- Three offline sends: a frame, an audio chunk and a text. -/
def c1Ops : List GeminiLiveClient.SendOp :=
  [.video "AAAA" 5, .audio "BBBB" 6, .text "hello" 7]

/-- A freshly constructed client: no socket yet, empty queue. -/
def c1Start : GeminiLiveClient.ClientState :=
  { ws := none, isConnected := false, reconnectAttempts := 0,
    shouldReconnect := true, messageQueue := [] }

/-- A connected client that has one reconnect attempt behind it (so a
reconnect timer from an earlier close is pending). -/
def c2Client : GeminiLiveClient.ClientState :=
  { ws := some { readyState := WebSocket.OPEN }, isConnected := true,
    reconnectAttempts := 1, shouldReconnect := true, messageQueue := [] }

/-- A connected upstream adapter with no prior reconnect attempts. -/
def c3Service : GeminiLiveService.ServiceState :=
  { ws := some { readyState := WebSocket.OPEN }, isConnected := true,
    reconnectAttempts := 0, messageQueue := [] }

/-- A tracked Relay connection. -/
def c6Conn : RealityLensWebSocketServer.ConnectionState :=
  { id := "conn_5_ab", clientWs := { readyState := WebSocket.OPEN },
    geminiService := none, isActive := true, lastActivity := 5, frameCount := 0 }

/-- A Relay tracking exactly the connection above. -/
def c6Server : RealityLensWebSocketServer.ServerState :=
  { connections := [("conn_5_ab", c6Conn)] }

/-- Sweep fixture: entry idle since the epoch (6 minutes before the sweep). -/
def c7Stale : RealityLensWebSocketServer.ConnectionState :=
  { id := "a", clientWs := { readyState := WebSocket.OPEN },
    geminiService := none, isActive := true, lastActivity := 0, frameCount := 0 }

/-- Sweep fixture: entry active 1 minute before the sweep. -/
def c7Fresh : RealityLensWebSocketServer.ConnectionState :=
  { id := "b", clientWs := { readyState := WebSocket.OPEN },
    geminiService := none, isActive := true, lastActivity := 300000, frameCount := 0 }

/-- A Relay tracking the stale and the fresh entry. -/
def c7Server : RealityLensWebSocketServer.ServerState :=
  { connections := [("a", c7Stale), ("b", c7Fresh)] }

/-- Client socket of the first colliding connection. -/
def c8Ws1 : Transport := { readyState := WebSocket.OPEN }

/-- Client socket of the second colliding connection (distinct from the first). -/
def c8Ws2 : Transport := { readyState := WebSocket.CONNECTING }

/-- An upstream adapter with an open transport and empty queue. -/
def c9Service : GeminiLiveService.ServiceState :=
  { ws := some { readyState := WebSocket.OPEN }, isConnected := true,
    reconnectAttempts := 0, messageQueue := [] }

/-- An active Relay connection owning the adapter above. -/
def c9Conn : RealityLensWebSocketServer.ConnectionState :=
  { id := "c9", clientWs := { readyState := WebSocket.OPEN },
    geminiService := some c9Service, isActive := true, lastActivity := 0, frameCount := 0 }

/-- A Relay tracking that active connection. -/
def c9Server : RealityLensWebSocketServer.ServerState :=
  { connections := [("c9", c9Conn)] }

/-- A video_frame wire message whose frame payload is data-URL prefixed. -/
def c9Frame : GeminiLiveClient.ClientMessage :=
  { type := "video_frame", data := some { frame := some "data:image/jpeg;base64,AAAA" } }

/-- A data message as queued by the upstream adapter. -/
def c10Chunk : GeminiLiveService.GeminiLiveMessage :=
  { realtimeInput :=
      some { mediaChunks := [{ data := "AAAA", mimeType := "image/jpeg" }] } }

/-- An adapter with no transport and one queued message. -/
def c10Stuck : GeminiLiveService.ServiceState :=
  { ws := none, isConnected := false, reconnectAttempts := 0,
    messageQueue := [c10Chunk] }

/-- An adapter with an open transport and one queued message. -/
def c10Open : GeminiLiveService.ServiceState :=
  { ws := some { readyState := WebSocket.OPEN }, isConnected := true,
    reconnectAttempts := 0, messageQueue := [c10Chunk] }

/- Decimal-string facts used for the connection-id uniqueness analysis. -/

/-- Value of a decimal digit string. -/
def digitListVal : List Char → Nat
  | [] => 0
  | c :: cs => (c.toNat - 48) * 10 ^ cs.length + digitListVal cs

theorem digitChar_val : ∀ d < 10, (Nat.digitChar d).toNat - 48 = d := by decide

theorem digitChar_isDigit : ∀ d < 10, (Nat.digitChar d).isDigit = true := by decide

theorem toDigitsCore_val (fuel : Nat) :
    ∀ n acc, n < 10 ^ fuel →
      digitListVal (Nat.toDigitsCore 10 fuel n acc) =
        n * 10 ^ acc.length + digitListVal acc := by
  induction fuel with
  | zero =>
    intro n acc hn
    interval_cases n
    simp [Nat.toDigitsCore]
  | succ fuel ih =>
    intro n acc hn
    by_cases h0 : n / 10 = 0
    · have hlt : n < 10 := by omega
      have hmod : n % 10 = n := Nat.mod_eq_of_lt hlt
      simp only [Nat.toDigitsCore, h0, if_pos, digitListVal]
      rw [hmod, digitChar_val n hlt]
    · have hdiv : n / 10 < 10 ^ fuel := by
        rw [Nat.div_lt_iff_lt_mul (by norm_num)]
        calc n < 10 ^ (fuel + 1) := hn
        _ = 10 ^ fuel * 10 := by ring
      simp only [Nat.toDigitsCore, h0, if_neg, ite_false]
      rw [ih (n / 10) (Nat.digitChar (n % 10) :: acc) hdiv]
      simp only [List.length_cons, digitListVal]
      rw [digitChar_val (n % 10) (Nat.mod_lt n (by norm_num))]
      have hsplit : 10 * (n / 10) + n % 10 = n := Nat.div_add_mod n 10
      calc n / 10 * 10 ^ (acc.length + 1) + (n % 10 * 10 ^ acc.length + digitListVal acc)
          = (10 * (n / 10) + n % 10) * 10 ^ acc.length + digitListVal acc := by ring
        _ = n * 10 ^ acc.length + digitListVal acc := by rw [hsplit]

theorem repr_data_val (n : Nat) : digitListVal (Nat.repr n).data = n := by
  have hlt : n < 10 ^ (n + 1) := by
    calc n < 2 ^ n := Nat.lt_two_pow n
    _ ≤ 10 ^ n := Nat.pow_le_pow_left (by norm_num) n
    _ ≤ 10 ^ (n + 1) := Nat.pow_le_pow_right (by norm_num) (Nat.le_succ n)
  have h := toDigitsCore_val (n + 1) n [] hlt
  simpa [Nat.repr, Nat.toDigits, List.asString, digitListVal] using h

theorem nat_repr_injective {m n : Nat} (h : Nat.repr m = Nat.repr n) : m = n := by
  have : digitListVal (Nat.repr m).data = digitListVal (Nat.repr n).data := by rw [h]
  rwa [repr_data_val, repr_data_val] at this

theorem toDigitsCore_mem (fuel : Nat) :
    ∀ n acc c, c ∈ Nat.toDigitsCore 10 fuel n acc → c ∈ acc ∨ c.isDigit = true := by
  induction fuel with
  | zero =>
    intro n acc c hc
    exact Or.inl hc
  | succ fuel ih =>
    intro n acc c hc
    by_cases h0 : n / 10 = 0
    · simp only [Nat.toDigitsCore, h0, if_pos] at hc
      rcases List.mem_cons.mp hc with h | h
      · subst h
        exact Or.inr (digitChar_isDigit _ (Nat.mod_lt n (by norm_num)))
      · exact Or.inl h
    · simp only [Nat.toDigitsCore, h0, if_neg, ite_false] at hc
      rcases ih (n / 10) (Nat.digitChar (n % 10) :: acc) c hc with h | h
      · rcases List.mem_cons.mp h with h2 | h2
        · subst h2
          exact Or.inr (digitChar_isDigit _ (Nat.mod_lt n (by norm_num)))
        · exact Or.inl h2
      · exact Or.inr h

theorem repr_no_underscore (n : Nat) : '_' ∉ (Nat.repr n).data := by
  intro hmem
  have : '_' ∈ Nat.toDigitsCore 10 (n + 1) n [] := by
    simpa [Nat.repr, Nat.toDigits, List.asString] using hmem
  rcases toDigitsCore_mem (n + 1) n [] '_' this with h | h
  · exact List.not_mem_nil _ h
  · simp [Char.isDigit] at h

theorem sep_split_inj :
    ∀ (a1 : List Char) (a2 s1 s2 : List Char), '_' ∉ a1 → '_' ∉ a2 →
      a1 ++ '_' :: s1 = a2 ++ '_' :: s2 → a1 = a2 ∧ s1 = s2 := by
  intro a1
  induction a1 with
  | nil =>
    intro a2 s1 s2 _ h2 heq
    cases a2 with
    | nil => simpa using heq
    | cons c rest =>
      simp only [List.nil_append, List.cons_append, List.cons.injEq] at heq
      exact absurd (heq.1 ▸ List.mem_cons_self c rest) h2
  | cons c rest ih =>
    intro a2 s1 s2 h1 h2 heq
    cases a2 with
    | nil =>
      simp only [List.nil_append, List.cons_append, List.cons.injEq] at heq
      exact absurd (heq.1.symm ▸ List.mem_cons_self c rest) h1
    | cons c2 rest2 =>
      simp only [List.cons_append, List.cons.injEq] at heq
      obtain ⟨hc, htail⟩ := heq
      have hr := ih rest2 s1 s2 (fun h => h1 (List.mem_cons_of_mem c h))
        (fun h => h2 (List.mem_cons_of_mem c2 h)) htail
      exact ⟨by rw [hc, hr.1], hr.2⟩

/-- The minted connection id determines the Date.now() reading and the
random suffix that produced it. -/
theorem generateConnectionId_inj {t1 t2 : Nat} {r1 r2 : String}
    (h : RealityLensWebSocketServer.generateConnectionId t1 r1 =
         RealityLensWebSocketServer.generateConnectionId t2 r2) :
    t1 = t2 ∧ r1 = r2 := by
  have hdata := congrArg String.data h
  simp only [RealityLensWebSocketServer.generateConnectionId, String.data_append] at hdata
  rw [List.append_assoc, List.append_assoc, List.append_assoc, List.append_assoc] at hdata
  have hcore := List.append_cancel_left hdata
  have hsep :
      (Nat.repr t1).data ++ '_' :: r1.data = (Nat.repr t2).data ++ '_' :: r2.data := by
    simpa using hcore
  obtain ⟨hrepr, hrand⟩ :=
    sep_split_inj (Nat.repr t1).data (Nat.repr t2).data r1.data r2.data
      (repr_no_underscore t1) (repr_no_underscore t2) hsep
  refine ⟨?_, String.ext hrand⟩
  have hval := congrArg digitListVal hrepr
  rwa [repr_data_val, repr_data_val] at hval

/- Association-list lemmas for the Relay connection Map. -/

namespace RealityLensWebSocketServer

theorem lookup_eq_none_of_not_mem_keys :
    ∀ (l : List (String × ConnectionState)) (id : String),
      id ∉ l.map Prod.fst → lookupEntry l id = none := by
  intro l
  induction l with
  | nil => intro id _; rfl
  | cons p rest ih =>
    intro id hid
    obtain ⟨k, v⟩ := p
    simp only [List.map_cons, List.mem_cons] at hid
    push_neg at hid
    have hk : ¬(k = id) := fun h => hid.1 h.symm
    simp only [lookupEntry, if_neg hk]
    exact ih id hid.2

theorem lookup_deleteEntry_self :
    ∀ (l : List (String × ConnectionState)) (id : String),
      (l.map Prod.fst).Nodup → lookupEntry (deleteEntry l id) id = none := by
  intro l
  induction l with
  | nil => intro id _; rfl
  | cons p rest ih =>
    intro id hnd
    obtain ⟨k, v⟩ := p
    simp only [List.map_cons, List.nodup_cons] at hnd
    by_cases hk : k = id
    · subst hk
      simp only [deleteEntry, if_pos rfl]
      exact lookup_eq_none_of_not_mem_keys rest k hnd.1
    · simp only [deleteEntry, if_neg hk, lookupEntry, if_neg hk]
      exact ih id hnd.2

theorem lookup_deleteEntry_other :
    ∀ (l : List (String × ConnectionState)) (id id2 : String), id ≠ id2 →
      lookupEntry (deleteEntry l id2) id = lookupEntry l id := by
  intro l
  induction l with
  | nil => intro id id2 _; rfl
  | cons p rest ih =>
    intro id id2 hne
    obtain ⟨k, v⟩ := p
    by_cases hk : k = id2
    · subst hk
      have hki : ¬(k = id) := fun h => hne h.symm
      simp [deleteEntry, lookupEntry, hki]
    · simp only [deleteEntry, if_neg hk, lookupEntry]
      by_cases hki : k = id
      · simp [hki]
      · simp only [if_neg hki]
        exact ih id id2 hne

theorem deleteEntry_setEntry :
    ∀ (l : List (String × ConnectionState)) (id : String) (st : ConnectionState),
      deleteEntry (setEntry l id st) id = deleteEntry l id := by
  intro l
  induction l with
  | nil => intro id st; simp [setEntry, deleteEntry]
  | cons p rest ih =>
    intro id st
    obtain ⟨k, v⟩ := p
    by_cases hk : k = id
    · simp [setEntry, deleteEntry, hk]
    · simp only [setEntry, if_neg hk, deleteEntry, if_neg hk]
      rw [ih]

theorem deleteEntry_sublist :
    ∀ (l : List (String × ConnectionState)) (id : String),
      (deleteEntry l id).Sublist l := by
  intro l
  induction l with
  | nil => intro id; exact List.Sublist.refl _
  | cons p rest ih =>
    intro id
    obtain ⟨k, v⟩ := p
    by_cases hk : k = id
    · simp only [deleteEntry, if_pos hk]
      exact (List.Sublist.refl rest).cons _
    · simp only [deleteEntry, if_neg hk]
      exact (ih id).cons₂ _

theorem lookup_some_mem :
    ∀ (l : List (String × ConnectionState)) (id : String) (st : ConnectionState),
      lookupEntry l id = some st → (id, st) ∈ l := by
  intro l
  induction l with
  | nil => intro id st h; simp [lookupEntry] at h
  | cons p rest ih =>
    intro id st h
    obtain ⟨k, v⟩ := p
    by_cases hk : k = id
    · subst hk
      simp only [lookupEntry, if_true, eq_self_iff_true, Option.some.injEq] at h
      rw [← h]
      exact List.mem_cons_self _ _
    · simp only [lookupEntry, if_neg hk] at h
      exact List.mem_cons_of_mem _ (ih id st h)

theorem lookup_of_mem_nodup :
    ∀ (l : List (String × ConnectionState)) (id : String) (st : ConnectionState),
      (l.map Prod.fst).Nodup → (id, st) ∈ l → lookupEntry l id = some st := by
  intro l
  induction l with
  | nil => intro id st _ h; simp at h
  | cons p rest ih =>
    intro id st hnd hmem
    obtain ⟨k, v⟩ := p
    simp only [List.map_cons, List.nodup_cons] at hnd
    rcases List.mem_cons.mp hmem with h | h
    · injection h with h1 h2
      subst h1
      subst h2
      simp [lookupEntry]
    · have hk : ¬(k = id) := by
        intro hkid
        subst hkid
        exact hnd.1 (List.mem_map.mpr ⟨(k, st), h, rfl⟩)
      simp only [lookupEntry, if_neg hk]
      exact ih id st hnd.2 h

theorem cleanup_absent {srv : ServerState} {id : String}
    (h : findConn srv id = none) : cleanupConnection srv id = srv := by
  simp [cleanupConnection, h]

theorem cleanup_connections_eq {srv : ServerState} {id : String}
    {st : ConnectionState} (h : findConn srv id = some st) :
    (cleanupConnection srv id).connections = deleteEntry srv.connections id := by
  simp [cleanupConnection, h, deleteEntry_setEntry]

theorem findConn_cleanup_self {srv : ServerState} (id : String)
    (hnd : (srv.connections.map Prod.fst).Nodup) :
    findConn (cleanupConnection srv id) id = none := by
  cases hfind : findConn srv id with
  | none => rw [cleanup_absent hfind]; exact hfind
  | some st =>
    show lookupEntry (cleanupConnection srv id).connections id = none
    rw [cleanup_connections_eq hfind]
    exact lookup_deleteEntry_self srv.connections id hnd

theorem findConn_cleanup_other {srv : ServerState} {id id2 : String}
    (hne : id ≠ id2) :
    findConn (cleanupConnection srv id2) id = findConn srv id := by
  cases hfind : findConn srv id2 with
  | none => rw [cleanup_absent hfind]
  | some st =>
    show lookupEntry (cleanupConnection srv id2).connections id = findConn srv id
    rw [cleanup_connections_eq hfind]
    exact lookup_deleteEntry_other srv.connections id id2 hne

theorem cleanup_nodup {srv : ServerState} (id : String)
    (hnd : (srv.connections.map Prod.fst).Nodup) :
    ((cleanupConnection srv id).connections.map Prod.fst).Nodup := by
  cases hfind : findConn srv id with
  | none => rw [cleanup_absent hfind]; exact hnd
  | some st =>
    rw [cleanup_connections_eq hfind]
    exact hnd.sublist ((deleteEntry_sublist srv.connections id).map Prod.fst)

theorem sweepFold_none (now : Nat) (id : String) :
    ∀ (entries : List (String × ConnectionState)) (acc : ServerState),
      findConn acc id = none →
      findConn (entries.foldl (sweepStep now) acc) id = none := by
  intro entries
  induction entries with
  | nil => intro acc h; exact h
  | cons e rest ih =>
    intro acc h
    simp only [List.foldl_cons]
    apply ih
    unfold sweepStep
    by_cases hstale : now - e.2.lastActivity > staleThreshold
    · rw [if_pos hstale]
      by_cases hk : id = e.1
      · subst hk; rw [cleanup_absent h]; exact h
      · rw [findConn_cleanup_other hk]; exact h
    · rw [if_neg hstale]; exact h

theorem sweepFold_nodup (now : Nat) :
    ∀ (entries : List (String × ConnectionState)) (acc : ServerState),
      (acc.connections.map Prod.fst).Nodup →
      ((entries.foldl (sweepStep now) acc).connections.map Prod.fst).Nodup := by
  intro entries
  induction entries with
  | nil => intro acc h; exact h
  | cons e rest ih =>
    intro acc h
    simp only [List.foldl_cons]
    apply ih
    unfold sweepStep
    by_cases hstale : now - e.2.lastActivity > staleThreshold
    · rw [if_pos hstale]; exact cleanup_nodup e.1 h
    · rw [if_neg hstale]; exact h

theorem sweepFold_fresh (now : Nat) (id : String) (st : ConnectionState) :
    ∀ (entries : List (String × ConnectionState)) (acc : ServerState),
      findConn acc id = some st →
      (∀ st2, (id, st2) ∈ entries → ¬(now - st2.lastActivity > staleThreshold)) →
      findConn (entries.foldl (sweepStep now) acc) id = some st := by
  intro entries
  induction entries with
  | nil => intro acc h _; exact h
  | cons e rest ih =>
    intro acc h hfresh
    simp only [List.foldl_cons]
    apply ih
    · unfold sweepStep
      by_cases hstale : now - e.2.lastActivity > staleThreshold
      · rw [if_pos hstale]
        have hk : id ≠ e.1 := by
          intro hkid
          obtain ⟨k, v⟩ := e
          exact hfresh v (by rw [hkid]; exact List.mem_cons_self _ _) hstale
        rw [findConn_cleanup_other hk]
        exact h
      · rw [if_neg hstale]; exact h
    · intro st2 hmem
      exact hfresh st2 (List.mem_cons_of_mem _ hmem)

end RealityLensWebSocketServer

/- Queue lemmas of the StreamingClient. -/

namespace GeminiLiveClient

theorem clientSendMessage_notOpen {s : ClientState} (h : wsIsOpen s = false)
    (m : ClientMessage) (sendOk : Bool) :
    sendMessage s m sendOk =
      ({ s with messageQueue := s.messageQueue ++ [m] }, []) := by
  simp [sendMessage, h]

theorem clientSendMessage_open_ok {s : ClientState} (h : wsIsOpen s = true)
    (m : ClientMessage) : sendMessage s m true = (s, [m]) := by
  simp [sendMessage, h]

theorem applySendOp_eq (s : ClientState) (op : SendOp) (sendOk : Bool) :
    applySendOp s op sendOk = sendMessage s op.toMessage sendOk := by
  cases op <;> rfl

theorem runSends_offline :
    ∀ (ops : List SendOp) (s : ClientState) (sendOk : Bool), wsIsOpen s = false →
      runSends s ops sendOk =
        ({ s with messageQueue := s.messageQueue ++ ops.map SendOp.toMessage }, []) := by
  intro ops
  induction ops with
  | nil =>
    intro s sendOk _
    simp [runSends]
  | cons op rest ih =>
    intro s sendOk h
    have hstep : applySendOp s op sendOk =
        ({ s with messageQueue := s.messageQueue ++ [op.toMessage] }, []) := by
      rw [applySendOp_eq]
      exact clientSendMessage_notOpen h _ _
    have h2 : wsIsOpen { s with messageQueue := s.messageQueue ++ [op.toMessage] } = false := h
    simp only [runSends, hstep]
    rw [ih _ sendOk h2]
    simp [List.append_assoc]

theorem clientProcessQueueFuel_succ_cons (sendOk : Bool) (fuel : Nat)
    (ws : Option Transport) (ic : Bool) (ra : Nat) (sr : Bool)
    (m : ClientMessage) (rest : List ClientMessage) :
    processQueueFuel sendOk (fuel + 1) ⟨ws, ic, ra, sr, m :: rest⟩ =
      if wsIsOpen ⟨ws, ic, ra, sr, m :: rest⟩ = false then
        some (⟨ws, ic, ra, sr, m :: rest⟩, [])
      else
        match processQueueFuel sendOk fuel
            (sendMessage ⟨ws, ic, ra, sr, rest⟩ m sendOk).1 with
        | none => none
        | some r => some (r.1, (sendMessage ⟨ws, ic, ra, sr, rest⟩ m sendOk).2 ++ r.2) :=
  rfl

theorem clientProcessQueue_open :
    ∀ (q : List ClientMessage) (s : ClientState),
      s.messageQueue = q → wsIsOpen s = true →
      processQueueFuel true (q.length + 1) s =
        some ({ s with messageQueue := [] }, q) := by
  intro q
  induction q with
  | nil =>
    intro s hq hopen
    simp only [List.length_nil, Nat.zero_add, processQueueFuel, hq]
    rw [← hq]
  | cons m rest ih =>
    intro s hq hopen
    obtain ⟨ws, ic, ra, sr, mq⟩ := s
    change mq = m :: rest at hq
    subst hq
    have hopen2 : wsIsOpen ⟨ws, ic, ra, sr, rest⟩ = true := hopen
    have hstep : sendMessage ⟨ws, ic, ra, sr, rest⟩ m true =
        (⟨ws, ic, ra, sr, rest⟩, [m]) := clientSendMessage_open_ok hopen2 m
    have hih := ih ⟨ws, ic, ra, sr, rest⟩ rfl hopen2
    rw [List.length_cons, clientProcessQueueFuel_succ_cons]
    rw [if_neg (by rw [hopen]; simp)]
    rw [hstep]
    simp only [hih, List.singleton_append]

end GeminiLiveClient

/- Queue lemmas of the UpstreamAdapter. -/

namespace GeminiLiveService

theorem serviceSendMessage_notOpen {s : ServiceState} (h : wsIsOpen s = false)
    (m : GeminiLiveMessage) (sendOk : Bool) :
    sendMessage s m sendOk =
      ({ s with messageQueue := s.messageQueue ++ [m] }, []) := by
  simp [sendMessage, h]

theorem serviceSendMessage_open_ok {s : ServiceState} (h : wsIsOpen s = true)
    (m : GeminiLiveMessage) : sendMessage s m true = (s, [m]) := by
  simp [sendMessage, h]

/-- On a non-open transport the drain loop never finishes: each iteration
shifts the head off the queue and sendMessage appends it back, so the queue
length never reaches zero, whatever the fuel. -/
theorem processQueueFuel_notOpen_none (sendOk : Bool) :
    ∀ (fuel : Nat) (s : ServiceState), wsIsOpen s = false → s.messageQueue ≠ [] →
      processQueueFuel sendOk fuel s = none := by
  intro fuel
  induction fuel with
  | zero =>
    intro s _ hq
    simp [processQueueFuel, hq]
  | succ fuel ih =>
    intro s hopen hq
    match hm : s.messageQueue with
    | [] => exact absurd hm hq
    | m :: rest =>
      have hopen2 : wsIsOpen { s with messageQueue := rest } = false := hopen
      have hstep := serviceSendMessage_notOpen hopen2 m sendOk
      have hrec := ih { s with messageQueue := rest ++ [m] }
        hopen (by simp)
      simp only [processQueueFuel, hm, hstep, hrec]

theorem serviceProcessQueueFuel_succ_cons (sendOk : Bool) (fuel : Nat)
    (ws : Option Transport) (ic : Bool) (ra : Nat)
    (m : GeminiLiveMessage) (rest : List GeminiLiveMessage) :
    processQueueFuel sendOk (fuel + 1) ⟨ws, ic, ra, m :: rest⟩ =
      match processQueueFuel sendOk fuel
          (sendMessage ⟨ws, ic, ra, rest⟩ m sendOk).1 with
      | none => none
      | some r => some (r.1, (sendMessage ⟨ws, ic, ra, rest⟩ m sendOk).2 ++ r.2) :=
  rfl

theorem serviceProcessQueue_open :
    ∀ (q : List GeminiLiveMessage) (s : ServiceState),
      s.messageQueue = q → wsIsOpen s = true →
      processQueueFuel true (q.length + 1) s =
        some ({ s with messageQueue := [] }, q) := by
  intro q
  induction q with
  | nil =>
    intro s hq _
    simp only [List.length_nil, Nat.zero_add, processQueueFuel, hq]
    rw [← hq]
  | cons m rest ih =>
    intro s hq hopen
    obtain ⟨ws, ic, ra, mq⟩ := s
    change mq = m :: rest at hq
    subst hq
    have hopen2 : wsIsOpen ⟨ws, ic, ra, rest⟩ = true := hopen
    have hstep : sendMessage ⟨ws, ic, ra, rest⟩ m true =
        (⟨ws, ic, ra, rest⟩, [m]) := serviceSendMessage_open_ok hopen2 m
    have hih := ih ⟨ws, ic, ra, rest⟩ rfl hopen2
    rw [List.length_cons, serviceProcessQueueFuel_succ_cons, hstep]
    simp only [hih, List.singleton_append]

end GeminiLiveService

/- Claim theorems. -/

/-- Claim C2 (evaluation at the failing input): after disconnect() the
resulting close event schedules no reconnect — but the claim also says a
previously scheduled reconnect timer, when it fires, checks liveness state
and aborts without opening a new connection; here the timer body connect()
constructs a fresh WebSocket even though shouldReconnect is already false,
so the attempt does open a new connection. -/
theorem C2_stale_timer_reconnects_after_disconnect :
    (GeminiLiveClient.disconnect c2Client true).1.shouldReconnect = false ∧
    (GeminiLiveClient.onClose (GeminiLiveClient.disconnect c2Client true).1).scheduledDelay = none ∧
    (GeminiLiveClient.connectStart (GeminiLiveClient.disconnect c2Client true).1
        { readyState := WebSocket.CONNECTING }).ws =
      some { readyState := WebSocket.CONNECTING } := by
  decide

/-- Claim C3 (evaluation at the failing input): disconnect() on the
upstream adapter closes and drops the socket, yet the close event the close
fires runs the close handler, which calls attemptReconnect unconditionally
and schedules a reconnect in 1000 ms — contradicting the claim that no
reconnection is attempted after explicit disconnect. -/
theorem C3_close_after_disconnect_schedules_reconnect :
    (GeminiLiveService.disconnect c3Service).ws = none ∧
    (GeminiLiveService.onClose (GeminiLiveService.disconnect c3Service)).scheduledDelay =
      some 1000 := by
  decide

/-- Claim C4: for reconnect attempt n in 1, 2, 3, both the client and the
upstream adapter schedule the attempt after 1000 * 2 ^ (n - 1) ms
(1000 ms, 2000 ms, 4000 ms). -/
theorem C4_backoff_delay_schedule (n : Nat) (cs : GeminiLiveClient.ClientState)
    (ss : GeminiLiveService.ServiceState) (h1 : 1 ≤ n) (h3 : n ≤ 3)
    (hc : cs.reconnectAttempts = n - 1) (hs : ss.reconnectAttempts = n - 1) :
    (GeminiLiveClient.attemptReconnect cs).scheduledDelay = some (1000 * 2 ^ (n - 1)) ∧
    (GeminiLiveService.attemptReconnect ss).scheduledDelay = some (1000 * 2 ^ (n - 1)) := by
  have hlt : ¬(cs.reconnectAttempts ≥ GeminiLiveClient.maxReconnectAttempts) := by
    rw [hc]
    unfold GeminiLiveClient.maxReconnectAttempts
    omega
  have hlt2 : ¬(ss.reconnectAttempts ≥ GeminiLiveService.maxReconnectAttempts) := by
    rw [hs]
    unfold GeminiLiveService.maxReconnectAttempts
    omega
  unfold GeminiLiveClient.attemptReconnect GeminiLiveService.attemptReconnect
  rw [if_neg hlt, if_neg hlt2]
  simp [GeminiLiveClient.reconnectDelay, GeminiLiveService.reconnectDelay, hc, hs]

/-- Witness for C4 at attempt n = 3: the scheduled delay is 4000 ms. -/
theorem C4_backoff_delay_schedule_witness :
    (1 ≤ 3 ∧ 3 ≤ 3 ∧
      ((⟨none, false, 2, true, []⟩ : GeminiLiveClient.ClientState).reconnectAttempts = 3 - 1) ∧
      ((⟨none, false, 2, []⟩ : GeminiLiveService.ServiceState).reconnectAttempts = 3 - 1)) ∧
    ((GeminiLiveClient.attemptReconnect ⟨none, false, 2, true, []⟩).scheduledDelay =
        some (1000 * 2 ^ (3 - 1)) ∧
      (GeminiLiveService.attemptReconnect ⟨none, false, 2, []⟩).scheduledDelay =
        some (1000 * 2 ^ (3 - 1))) :=
  ⟨⟨by decide, by decide, by decide, by decide⟩,
    C4_backoff_delay_schedule 3 ⟨none, false, 2, true, []⟩ ⟨none, false, 2, []⟩
      (by decide) (by decide) (by decide) (by decide)⟩

/-- Claim C5: once 3 reconnect attempts have been made and the connection
closes again (reconnection still enabled), neither the client nor the
upstream adapter schedules a further attempt, and each surfaces the
terminal error to its error observer exactly once. -/
theorem C5_reconnect_ceiling (cs : GeminiLiveClient.ClientState)
    (ss : GeminiLiveService.ServiceState) (hc : cs.reconnectAttempts = 3)
    (hsr : cs.shouldReconnect = true) (hs : ss.reconnectAttempts = 3) :
    (GeminiLiveClient.onClose cs).scheduledDelay = none ∧
    (GeminiLiveClient.onClose cs).errorsSurfaced = 1 ∧
    (GeminiLiveService.onClose ss).scheduledDelay = none ∧
    (GeminiLiveService.onClose ss).errorsSurfaced = 1 := by
  obtain ⟨ws, ic, ra, sr, mq⟩ := cs
  obtain ⟨ws2, ic2, ra2, mq2⟩ := ss
  change ra = 3 at hc
  change sr = true at hsr
  change ra2 = 3 at hs
  subst hc
  subst hsr
  subst hs
  simp [GeminiLiveClient.onClose, GeminiLiveService.onClose,
    GeminiLiveClient.attemptReconnect, GeminiLiveService.attemptReconnect,
    GeminiLiveClient.maxReconnectAttempts, GeminiLiveService.maxReconnectAttempts]

/-- Witness for C5: a client and an adapter that both exhausted the 3
attempts. -/
theorem C5_reconnect_ceiling_witness :
    ((⟨none, false, 3, true, []⟩ : GeminiLiveClient.ClientState).reconnectAttempts = 3 ∧
      (⟨none, false, 3, true, []⟩ : GeminiLiveClient.ClientState).shouldReconnect = true ∧
      (⟨none, false, 3, []⟩ : GeminiLiveService.ServiceState).reconnectAttempts = 3) ∧
    ((GeminiLiveClient.onClose ⟨none, false, 3, true, []⟩).scheduledDelay = none ∧
      (GeminiLiveClient.onClose ⟨none, false, 3, true, []⟩).errorsSurfaced = 1 ∧
      (GeminiLiveService.onClose ⟨none, false, 3, []⟩).scheduledDelay = none ∧
      (GeminiLiveService.onClose ⟨none, false, 3, []⟩).errorsSurfaced = 1) :=
  ⟨⟨by decide, by decide, by decide⟩,
    C5_reconnect_ceiling ⟨none, false, 3, true, []⟩ ⟨none, false, 3, []⟩
      (by decide) (by decide) (by decide)⟩

/-- Claim C1: all messages sent while the transport is not open are
appended to the queue in issue order with nothing transmitted, and once a
subsequent connect() succeeds, the onopen flush transmits exactly those
messages in the exact order they were issued — none reordered, none
dropped, none duplicated — leaving the queue empty. -/
theorem C1_offline_sends_flushed_fifo (ops : List GeminiLiveClient.SendOp)
    (s : GeminiLiveClient.ClientState) (t : Transport) (sendOk : Bool)
    (hq : s.messageQueue = []) (hnotopen : GeminiLiveClient.wsIsOpen s = false)
    (hopen : t.readyState = WebSocket.OPEN) :
    (GeminiLiveClient.runSends s ops sendOk).2 = [] ∧
    (GeminiLiveClient.runSends s ops sendOk).1.messageQueue =
      ops.map GeminiLiveClient.SendOp.toMessage ∧
    ∃ s2,
      GeminiLiveClient.onOpen true (ops.length + 1)
          { (GeminiLiveClient.runSends s ops sendOk).1 with ws := some t } =
        some (s2, ops.map GeminiLiveClient.SendOp.toMessage) ∧
      s2.messageQueue = [] := by
  have hrun := GeminiLiveClient.runSends_offline ops s sendOk hnotopen
  rw [hrun]
  refine ⟨rfl, by simp [hq], ?_⟩
  unfold GeminiLiveClient.onOpen
  have hopen2 : GeminiLiveClient.wsIsOpen
      { s with
        messageQueue := (s.messageQueue ++ ops.map GeminiLiveClient.SendOp.toMessage)
        ws := some t
        isConnected := true
        reconnectAttempts := 0 } = true := by
    simp [GeminiLiveClient.wsIsOpen, hopen]
  have hqu : ({ s with
        messageQueue := (s.messageQueue ++ ops.map GeminiLiveClient.SendOp.toMessage)
        ws := some t
        isConnected := true
        reconnectAttempts := 0 } :
      GeminiLiveClient.ClientState).messageQueue =
      ops.map GeminiLiveClient.SendOp.toMessage := by
    simp [hq]
  have happ := GeminiLiveClient.clientProcessQueue_open
    (ops.map GeminiLiveClient.SendOp.toMessage) _ hqu hopen2
  rw [List.length_map] at happ
  exact ⟨_, happ, rfl⟩

/-- Witness for C1: three sends issued on a socketless client, then a
successful connect with an open transport. -/
theorem C1_offline_sends_flushed_fifo_witness :
    (c1Start.messageQueue = [] ∧ GeminiLiveClient.wsIsOpen c1Start = false ∧
      (Transport.mk WebSocket.OPEN).readyState = WebSocket.OPEN) ∧
    ((GeminiLiveClient.runSends c1Start c1Ops false).2 = [] ∧
      (GeminiLiveClient.runSends c1Start c1Ops false).1.messageQueue =
        c1Ops.map GeminiLiveClient.SendOp.toMessage ∧
      ∃ s2,
        GeminiLiveClient.onOpen true (c1Ops.length + 1)
            { (GeminiLiveClient.runSends c1Start c1Ops false).1 with
              ws := some (Transport.mk WebSocket.OPEN) } =
          some (s2, c1Ops.map GeminiLiveClient.SendOp.toMessage) ∧
        s2.messageQueue = []) :=
  ⟨⟨rfl, rfl, rfl⟩,
    C1_offline_sends_flushed_fifo c1Ops c1Start (Transport.mk WebSocket.OPEN) false
      rfl rfl rfl⟩

/-- Claim C6: cleanupConnection is idempotent — after the first call the id
is absent from the mapping, and a second call with the same id is a no-op
(the embedding is total, so no exception is possible on either call). -/
theorem C6_cleanup_idempotent (srv : RealityLensWebSocketServer.ServerState)
    (id : String) (hnd : (srv.connections.map Prod.fst).Nodup) :
    RealityLensWebSocketServer.findConn
      (RealityLensWebSocketServer.cleanupConnection srv id) id = none ∧
    RealityLensWebSocketServer.cleanupConnection
        (RealityLensWebSocketServer.cleanupConnection srv id) id =
      RealityLensWebSocketServer.cleanupConnection srv id := by
  have h1 := RealityLensWebSocketServer.findConn_cleanup_self id hnd
  exact ⟨h1, RealityLensWebSocketServer.cleanup_absent h1⟩

/-- Witness for C6: a Relay tracking one connection, cleaned up twice. -/
theorem C6_cleanup_idempotent_witness :
    (c6Server.connections.map Prod.fst).Nodup ∧
    (RealityLensWebSocketServer.findConn
        (RealityLensWebSocketServer.cleanupConnection c6Server "conn_5_ab")
        "conn_5_ab" = none ∧
      RealityLensWebSocketServer.cleanupConnection
          (RealityLensWebSocketServer.cleanupConnection c6Server "conn_5_ab")
          "conn_5_ab" =
        RealityLensWebSocketServer.cleanupConnection c6Server "conn_5_ab") :=
  ⟨by decide, C6_cleanup_idempotent c6Server "conn_5_ab" (by decide)⟩

/-- Claim C7: when the idle sweep runs, every tracked entry whose
lastActivity is more than 5 minutes (300000 ms) in the past is removed from
the mapping, and every entry whose lastActivity is 1 minute (60000 ms) in
the past survives the sweep unchanged. -/
theorem C7_idle_sweep (srv : RealityLensWebSocketServer.ServerState) (now : Nat)
    (id : String) (st : RealityLensWebSocketServer.ConnectionState)
    (hnd : (srv.connections.map Prod.fst).Nodup)
    (hfind : RealityLensWebSocketServer.findConn srv id = some st) :
    (now - st.lastActivity > RealityLensWebSocketServer.staleThreshold →
      RealityLensWebSocketServer.findConn
        (RealityLensWebSocketServer.cleanupStaleConnections srv now) id = none) ∧
    (now - st.lastActivity = 60000 →
      RealityLensWebSocketServer.findConn
        (RealityLensWebSocketServer.cleanupStaleConnections srv now) id = some st) := by
  constructor
  · intro hstale
    have hmem := RealityLensWebSocketServer.lookup_some_mem srv.connections id st hfind
    obtain ⟨l1, l2, hsplit⟩ := List.append_of_mem hmem
    unfold RealityLensWebSocketServer.cleanupStaleConnections
    rw [hsplit, List.foldl_append, List.foldl_cons]
    apply RealityLensWebSocketServer.sweepFold_none
    have hnd1 := RealityLensWebSocketServer.sweepFold_nodup now l1 srv hnd
    unfold RealityLensWebSocketServer.sweepStep
    dsimp only
    rw [if_pos hstale]
    exact RealityLensWebSocketServer.findConn_cleanup_self id hnd1
  · intro hfresh
    apply RealityLensWebSocketServer.sweepFold_fresh now id st srv.connections srv hfind
    intro st2 hmem2
    have hlk := RealityLensWebSocketServer.lookup_of_mem_nodup srv.connections id st2 hnd hmem2
    have hfind2 : RealityLensWebSocketServer.lookupEntry srv.connections id = some st := hfind
    rw [hfind2] at hlk
    injection hlk with hst
    rw [← hst]
    rw [hfresh]
    decide

/-- Witness for C7: a sweep at t = 360000 over one entry idle since t = 0
(6 minutes) and one active at t = 300000 (1 minute before the sweep). -/
theorem C7_idle_sweep_witness :
    ((c7Server.connections.map Prod.fst).Nodup ∧
      RealityLensWebSocketServer.findConn c7Server "a" = some c7Stale ∧
      RealityLensWebSocketServer.findConn c7Server "b" = some c7Fresh ∧
      360000 - c7Stale.lastActivity > RealityLensWebSocketServer.staleThreshold ∧
      360000 - c7Fresh.lastActivity = 60000) ∧
    RealityLensWebSocketServer.findConn
      (RealityLensWebSocketServer.cleanupStaleConnections c7Server 360000) "a" = none ∧
    RealityLensWebSocketServer.findConn
      (RealityLensWebSocketServer.cleanupStaleConnections c7Server 360000) "b" =
      some c7Fresh :=
  ⟨⟨by decide, by decide, by decide, by decide, by decide⟩,
    (C7_idle_sweep c7Server 360000 "a" c7Stale (by decide) (by decide)).1 (by decide),
    (C7_idle_sweep c7Server 360000 "b" c7Fresh (by decide) (by decide)).2 (by decide)⟩

/-- Claim C8 counterexample: two distinct client connections accepted in
the same millisecond with the same Math.random() draw receive the same
connection id, and the second registration overwrites the ConnectionState
of the first — the mapping holds one entry, carrying the second socket. -/
theorem C8_id_collision_overwrites :
    RealityLensWebSocketServer.generateConnectionId 17 "4fzyo82" =
      RealityLensWebSocketServer.generateConnectionId 17 "4fzyo82" ∧
    c8Ws1 ≠ c8Ws2 ∧
    (RealityLensWebSocketServer.registerConnection
        (RealityLensWebSocketServer.registerConnection
          { connections := [] } 17 "4fzyo82" c8Ws1).1
        17 "4fzyo82" c8Ws2).1.connections.length = 1 ∧
    (RealityLensWebSocketServer.findConn
        (RealityLensWebSocketServer.registerConnection
          (RealityLensWebSocketServer.registerConnection
            { connections := [] } 17 "4fzyo82" c8Ws1).1
          17 "4fzyo82" c8Ws2).1
        (RealityLensWebSocketServer.generateConnectionId 17 "4fzyo82")).map
      (fun st => st.clientWs) = some c8Ws2 := by
  refine ⟨rfl, by decide, by decide, by decide⟩

/-- Claim C8 amended: connection ids are distinct whenever the two accepted
connections differ in their Date.now() millisecond or in their random
suffix; only when both coincide do the ids collide (and then the later
ConnectionState overwrites the earlier entry, as the counterexample shows). -/
theorem C8_distinct_inputs_distinct_ids (t1 t2 : Nat) (r1 r2 : String)
    (h : t1 ≠ t2 ∨ r1 ≠ r2) :
    RealityLensWebSocketServer.generateConnectionId t1 r1 ≠
      RealityLensWebSocketServer.generateConnectionId t2 r2 := by
  intro heq
  obtain ⟨ht, hr⟩ := generateConnectionId_inj heq
  rcases h with h | h
  · exact h ht
  · exact h hr

/-- Witness for the amended C8: different milliseconds, same suffix. -/
theorem C8_distinct_inputs_distinct_ids_witness :
    ((17 : Nat) ≠ 18 ∨ ("abc" : String) ≠ "abc") ∧
    RealityLensWebSocketServer.generateConnectionId 17 "abc" ≠
      RealityLensWebSocketServer.generateConnectionId 18 "abc" :=
  ⟨Or.inl (by decide),
    C8_distinct_inputs_distinct_ids 17 18 "abc" "abc" (Or.inl (by decide))⟩

/-- Claim C9: a video_frame message from an active client whose frame
payload is the data-URL prefixed string is forwarded to the upstream
adapter as a media chunk whose data is the bare payload AAAA with MIME type
image/jpeg. -/
theorem C9_data_url_stripped :
    (RealityLensWebSocketServer.handleClientMessage c9Server "c9" c9Frame 1 true).2 =
      [{ realtimeInput :=
          some { mediaChunks := [{ data := "AAAA", mimeType := "image/jpeg" }] } }] := by
  decide

/-- Claim C10 counterexample: with the transport not open and a single
queued message, the drain loop of the upstream adapter never terminates —
each iteration shifts the head and sendMessage re-appends it, so the loop
guard `queue.length > 0` never turns false. -/
theorem C10_drain_nonterminating :
    ¬ GeminiLiveService.processQueueTerminates true c10Stuck := by
  rintro ⟨fuel, r, hr⟩
  rw [GeminiLiveService.processQueueFuel_notOpen_none true fuel c10Stuck rfl
    (by decide)] at hr
  exact Option.noConfusion hr

/-- Claim C10 amended: the drain loop terminates whenever the transport is
open and sends succeed — fuel one more than the queue length suffices, it
transmits exactly the queued messages in order, and it leaves the queue
empty; with the transport not open it loops forever (see the
counterexample). -/
theorem C10_drain_terminates_when_open (s : GeminiLiveService.ServiceState)
    (hopen : GeminiLiveService.wsIsOpen s = true) :
    GeminiLiveService.processQueueFuel true (s.messageQueue.length + 1) s =
      some ({ s with messageQueue := [] }, s.messageQueue) ∧
    GeminiLiveService.processQueueTerminates true s := by
  have h := GeminiLiveService.serviceProcessQueue_open s.messageQueue s rfl hopen
  exact ⟨h, ⟨_, _, h⟩⟩

/-- Witness for the amended C10: an adapter with an open transport and one
queued message drains it. -/
theorem C10_drain_terminates_when_open_witness :
    GeminiLiveService.wsIsOpen c10Open = true ∧
    (GeminiLiveService.processQueueFuel true (c10Open.messageQueue.length + 1) c10Open =
        some ({ c10Open with messageQueue := [] }, c10Open.messageQueue) ∧
      GeminiLiveService.processQueueTerminates true c10Open) :=
  ⟨rfl, C10_drain_terminates_when_open c10Open rfl⟩
